import Mathlib

/-!
Shallow embedding of `src/models.py` from the Udacity-NEO repository: the
`NearEarthObject` and `CloseApproach` data model, their constructors with
type validation, and their derived string renderings.  Python values that
can flow into the constructors are modelled by `PyVal`; Python `float`
values are modelled by `Option ℚ`, with `none` standing for `nan`.

The collaborators `cd_to_datetime` and `datetime_to_str` live in
`helpers.py`, which is not among the modelled sources; they are modelled
from the spec (fixed minute-precision format `"YYYY-MM-DD HH:MM"`).
-/

/-- A calendar timestamp at minute precision (the value produced by the
`cd_to_datetime` collaborator). -/
structure Datetime where
  year : Nat
  month : Nat
  day : Nat
  hour : Nat
  minute : Nat
deriving DecidableEq

/-- Is `c` a decimal digit character (`'0'`..`'9'`)? -/
def isDigitChar (c : Char) : Bool := 48 ≤ c.toNat && c.toNat ≤ 57

/-- Numeric value of a digit character. -/
def digitVal (c : Char) : Nat := c.toNat - 48

/-- The character for the decimal digit `d`. -/
def digitChar (d : Nat) : Char := Char.ofNat (48 + d)

/-- Two zero-padded decimal digits of `n` (low two digits). -/
def pad2 (n : Nat) : List Char := [digitChar (n / 10 % 10), digitChar (n % 10)]

/-- Four zero-padded decimal digits of `n` (low four digits). -/
def pad4 (n : Nat) : List Char :=
  [digitChar (n / 1000 % 10), digitChar (n / 100 % 10), digitChar (n / 10 % 10), digitChar (n % 10)]

/-- Modelled from the spec: the trusted formatting collaborator
`datetime_to_str` of `helpers.py` (a file not among the modelled sources).
It renders a timestamp in the fixed minute-precision format
`"YYYY-MM-DD HH:MM"` (24-hour, zero-padded, no seconds). -/
def datetime_to_str (t : Datetime) : String :=
  String.mk (pad4 t.year ++ '-' :: pad2 t.month ++ '-' :: pad2 t.day ++
    ' ' :: pad2 t.hour ++ ':' :: pad2 t.minute)

/-- Modelled from the spec: the trusted parsing collaborator
`cd_to_datetime` of `helpers.py` (a file not among the modelled sources).
It accepts exactly the fixed format `"YYYY-MM-DD HH:MM"` and fails
(`none`) on malformed input. -/
def cd_to_datetime (s : String) : Option Datetime :=
  match s.data with
  | [y1, y2, y3, y4, c1, m1, m2, c2, d1, d2, c3, h1, h2, c4, n1, n2] =>
    if c1 = '-' && c2 = '-' && c3 = ' ' && c4 = ':'
        && isDigitChar y1 && isDigitChar y2 && isDigitChar y3 && isDigitChar y4
        && isDigitChar m1 && isDigitChar m2 && isDigitChar d1 && isDigitChar d2
        && isDigitChar h1 && isDigitChar h2 && isDigitChar n1 && isDigitChar n2 then
      let year := digitVal y1 * 1000 + digitVal y2 * 100 + digitVal y3 * 10 + digitVal y4
      let month := digitVal m1 * 10 + digitVal m2
      let day := digitVal d1 * 10 + digitVal d2
      let hour := digitVal h1 * 10 + digitVal h2
      let minute := digitVal n1 * 10 + digitVal n2
      if 1 ≤ year && 1 ≤ month && month ≤ 12 && 1 ≤ day && day ≤ 31
          && hour ≤ 23 && minute ≤ 59 then
        some ⟨year, month, day, hour, minute⟩
      else none
    else none
  | _ => none

/-- A Python runtime value that can flow into the constructors of
`models.py`: a string, a float (`none` stands for `nan`), an integer, a
boolean, or `None`. -/
inductive PyVal where
  | pstr (s : String)
  | pfloat (q : Option ℚ)
  | pint (n : ℤ)
  | pbool (b : Bool)
  | pnone
deriving DecidableEq

/-- A Python numeric value as stored: a value passing
`isinstance(x, (float, int))`; Python `bool` is a subclass of `int`. -/
inductive PyNum where
  | float (q : Option ℚ)
  | int (n : ℤ)
  | bool (b : Bool)
deriving DecidableEq

/-- Python `isinstance(v, str)`. -/
def PyVal.isStr : PyVal → Bool
  | .pstr _ => true
  | _ => false

/-- Python `isinstance(v, (float, int))`, keeping the passing value:
`True`/`False` pass because `bool` is a subclass of `int`, and `nan` is a
`float` value, so it passes too. -/
def PyVal.toNum? : PyVal → Option PyNum
  | .pfloat q => some (.float q)
  | .pint n => some (.int n)
  | .pbool b => some (.bool b)
  | _ => none

/-- Python `isinstance(v, (float, int))` as a plain test. -/
def PyVal.isNum (v : PyVal) : Bool := v.toNum?.isSome

/-- Python `isinstance(v, (bool, str))`. -/
def PyVal.isBoolOrStr : PyVal → Bool
  | .pbool _ => true
  | .pstr _ => true
  | _ => false

/-- Python `v == 'Y'`: true exactly for the string `"Y"` (`True == 'Y'`
is false, as is any other string or value). -/
def PyVal.eqY : PyVal → Bool
  | .pstr s => s == "Y"
  | _ => false

/-- Python `float(x)` on a numeric value; `none` stands for `nan`. -/
def PyNum.toFloat : PyNum → Option ℚ
  | .float q => q
  | .int n => some (n : ℚ)
  | .bool b => some (if b then 1 else 0)

/-- Decimal digits of `n`, zero-padded on the left to `k` digits. -/
def padZeros (k : Nat) (n : Nat) : String :=
  String.mk (List.replicate (k - (toString n).length) '0') ++ toString n

/-- Python fixed-point formatting `format(x, '.kf')` of a float value
(`none` stands for `nan`, rendered as the token `"nan"`); the value is
rounded to `k` decimal places. -/
def formatFixed (x : Option ℚ) (k : Nat) : String :=
  match x with
  | none => "nan"
  | some q =>
    (if round (q * (10 : ℚ) ^ k) < 0 then "-" else "")
      ++ toString ((round (q * (10 : ℚ) ^ k)).natAbs / 10 ^ k) ++ "."
      ++ padZeros k ((round (q * (10 : ℚ) ^ k)).natAbs % 10 ^ k)

/-- Python f-string interpolation of an optional string field
(`str(None)` is `"None"`). -/
def strOptStr : Option String → String
  | none => "None"
  | some s => s

/-- Python `repr` of an optional string: `None`, or the string in single
quotes. -/
def reprOptStr : Option String → String
  | none => "None"
  | some s => "'" ++ s ++ "'"

/-- Python `repr` of a boolean. -/
def reprBool : Bool → String
  | true => "True"
  | false => "False"

/-- The `NearEarthObject` entity: the fields stored by construction. The
`approaches` collection (always initialized empty and populated only by
the external linker) is not modelled. -/
structure NearEarthObject where
  designation : Option String
  name : Option String
  diameter : PyNum
  hazardous : Bool
deriving DecidableEq

/-- A construction-time failure: `TypeError` from the per-field type
checks, or the collaborator's failure (`ValueError`) on parsing a
malformed non-empty time string. -/
inductive ConstructError where
  | typeError (msg : String)
  | valueError
deriving DecidableEq

/-- `NearEarthObject.__init__`: per-field type validation in source order
(designation, name, diameter, hazardous), then normalization: empty
string to absent, `hazardous == 'Y'`, diameter stored as given. -/
def NearEarthObject.init (designation name diameter hazardous : PyVal) :
    Except ConstructError NearEarthObject :=
  match designation with
  | .pstr ds =>
    match name with
    | .pstr ns =>
      match diameter.toNum? with
      | some dia =>
        if hazardous.isBoolOrStr then
          .ok { designation := if ds = "" then none else some ds,
                name := if ns = "" then none else some ns,
                diameter := dia,
                hazardous := hazardous.eqY }
        else .error (.typeError "'hazardous' must be True/False.")
      | none => .error (.typeError "'diameter' must be a number.")
    | _ => .error (.typeError "'name' must be a string.")
  | _ => .error (.typeError "'designation' must be a string.")

/-- `NearEarthObject.fullname`: `"<designation> (<name>)"` when the
stored name is truthy, else `"<designation>"` (Python interpolation of an
absent designation yields the text `"None"`). -/
def NearEarthObject.fullname (neo : NearEarthObject) : String :=
  match neo.name with
  | some n =>
    if n = "" then strOptStr neo.designation
    else strOptStr neo.designation ++ " (" ++ n ++ ")"
  | none => strOptStr neo.designation

/-- `NearEarthObject.__str__`: the human-readable sentence with the
diameter formatted to 3 decimal places. -/
def NearEarthObject.str (neo : NearEarthObject) : String :=
  if neo.hazardous then
    "NEO " ++ neo.fullname ++ " has a diameter of "
      ++ formatFixed neo.diameter.toFloat 3 ++ " km and is potentially hazardous."
  else
    "NEO " ++ neo.fullname ++ " has a diameter of "
      ++ formatFixed neo.diameter.toFloat 3 ++ " km and is not potentially hazardous."

/-- `NearEarthObject.__repr__`: the debug rendering; its f-string uses
the `=` specifier, which includes the expression text such as
`self.designation=` in the output. -/
def NearEarthObject.repr (neo : NearEarthObject) : String :=
  "NearEarthObject(self.designation=" ++ reprOptStr neo.designation
    ++ ", self.name=" ++ reprOptStr neo.name
    ++ ", self.diameter=" ++ formatFixed neo.diameter.toFloat 3
    ++ ", self.hazardous=" ++ reprBool neo.hazardous ++ ")"

/-- The `CloseApproach` entity: the fields stored by construction.
`_designation` is the private raw-designation field. -/
structure CloseApproach where
  _designation : Option String
  time : Option Datetime
  distance : Option ℚ
  velocity : Option ℚ
  neo : Option NearEarthObject
deriving DecidableEq

/-- `CloseApproach.__init__`: type checks in source order (designation,
time, velocity, then distance), then normalization: empty designation to
absent, `cd_to_datetime` on a non-empty time string (its failure on
malformed input propagates to the caller), `float` conversion of
distance and velocity, and the `neo` reference stored as given. -/
def CloseApproach.init (designation time distance velocity : PyVal)
    (neo : Option NearEarthObject) : Except ConstructError CloseApproach :=
  match designation with
  | .pstr ds =>
    match time with
    | .pstr ts =>
      match velocity.toNum? with
      | some vel =>
        match distance.toNum? with
        | some dist =>
          if ts = "" then
            .ok { _designation := if ds = "" then none else some ds,
                  time := none,
                  distance := dist.toFloat,
                  velocity := vel.toFloat,
                  neo := neo }
          else
            match cd_to_datetime ts with
            | some t =>
              .ok { _designation := if ds = "" then none else some ds,
                    time := some t,
                    distance := dist.toFloat,
                    velocity := vel.toFloat,
                    neo := neo }
            | none => .error .valueError
        | none => .error (.typeError "'distance' must be a number.")
      | none => .error (.typeError "'velocity' must be a number.")
    | _ =>
      .error (.typeError "'time' must be a string in the following format; 'yyyy-mm-dd HH:MM'.")
  | _ => .error (.typeError "'designation' must be a string.")

/-- `CloseApproach.time_str`: `datetime_to_str(self.time)` when a time is
present, else the empty string. -/
def CloseApproach.time_str (ca : CloseApproach) : String :=
  match ca.time with
  | some t => datetime_to_str t
  | none => ""

/-- `CloseApproach.__str__`: the human-readable rendering. Its f-string
uses the `=` specifier on both numbers, so the text includes
`self.distance=` and `self.velocity=`. Python dereferences
`self.neo.fullname`, which raises `AttributeError` when `neo` is absent;
that failure is modelled by `none`. -/
def CloseApproach.str (ca : CloseApproach) : Option String :=
  match ca.neo with
  | none => none
  | some neo =>
    some ("On " ++ ca.time_str ++ ", '" ++ neo.fullname
      ++ "' approaches Earth at a distance of self.distance="
      ++ formatFixed ca.distance 2 ++ " au and a velocity of self.velocity="
      ++ formatFixed ca.velocity 2 ++ " km/s.")

/-- `CloseApproach.__repr__`: the debug rendering (`repr(None)` is the
text `"None"`; a linked neo contributes its own debug rendering). -/
def CloseApproach.repr (ca : CloseApproach) : String :=
  "CloseApproach(time=" ++ reprOptStr (some ca.time_str)
    ++ ", distance=" ++ formatFixed ca.distance 2
    ++ ", velocity=" ++ formatFixed ca.velocity 2
    ++ ", neo=" ++ (match ca.neo with | none => "None" | some neo => neo.repr) ++ ")"

/-!
Theorems and helper lemmas.
-/

theorem charOfNat_toNat (c : Char) : Char.ofNat c.toNat = c := by
  rcases c with ⟨⟨⟨v, hlt⟩⟩, hvalid⟩
  have hv : Nat.isValidChar v := hvalid
  simp [Char.ofNat, Char.ofNatAux, Char.toNat, UInt32.toNat, hv, BitVec.ofNatLt]

theorem digitChar_digitVal {c : Char} (h : isDigitChar c = true) :
    digitChar (digitVal c) = c := by
  have hv : 48 ≤ c.toNat ∧ c.toNat ≤ 57 := by
    simpa [isDigitChar, Bool.and_eq_true, decide_eq_true_eq] using h
  have heq : 48 + (c.toNat - 48) = c.toNat := by omega
  rw [digitChar, digitVal, heq, charOfNat_toNat]

theorem digitVal_le {c : Char} (h : isDigitChar c = true) : digitVal c ≤ 9 := by
  have hv : 48 ≤ c.toNat ∧ c.toNat ≤ 57 := by
    simpa [isDigitChar, Bool.and_eq_true, decide_eq_true_eq] using h
  simp only [digitVal]
  omega

theorem pad2_digits {a b : Char} (ha : isDigitChar a = true) (hb : isDigitChar b = true) :
    pad2 (digitVal a * 10 + digitVal b) = [a, b] := by
  have ha9 := digitVal_le ha
  have hb9 := digitVal_le hb
  have h1 : (digitVal a * 10 + digitVal b) / 10 % 10 = digitVal a := by omega
  have h2 : (digitVal a * 10 + digitVal b) % 10 = digitVal b := by omega
  simp only [pad2, h1, h2, digitChar_digitVal ha, digitChar_digitVal hb]

theorem pad4_digits {a b c d : Char} (ha : isDigitChar a = true) (hb : isDigitChar b = true)
    (hc : isDigitChar c = true) (hd : isDigitChar d = true) :
    pad4 (digitVal a * 1000 + digitVal b * 100 + digitVal c * 10 + digitVal d) = [a, b, c, d] := by
  have ha9 := digitVal_le ha
  have hb9 := digitVal_le hb
  have hc9 := digitVal_le hc
  have hd9 := digitVal_le hd
  have h1 : (digitVal a * 1000 + digitVal b * 100 + digitVal c * 10 + digitVal d) / 1000 % 10
      = digitVal a := by omega
  have h2 : (digitVal a * 1000 + digitVal b * 100 + digitVal c * 10 + digitVal d) / 100 % 10
      = digitVal b := by omega
  have h3 : (digitVal a * 1000 + digitVal b * 100 + digitVal c * 10 + digitVal d) / 10 % 10
      = digitVal c := by omega
  have h4 : (digitVal a * 1000 + digitVal b * 100 + digitVal c * 10 + digitVal d) % 10
      = digitVal d := by omega
  simp only [pad4, h1, h2, h3, h4, digitChar_digitVal ha, digitChar_digitVal hb,
    digitChar_digitVal hc, digitChar_digitVal hd]

theorem datetime_to_str_of_parse {s : String} {t : Datetime}
    (h : cd_to_datetime s = some t) : datetime_to_str t = s := by
  obtain ⟨L⟩ := s
  unfold cd_to_datetime at h
  split at h
  case h_2 => exact absurd h (by simp)
  case h_1 y1 y2 y3 y4 c1 m1 m2 c2 d1 d2 c3 h1 h2 c4 n1 n2 heq =>
    split at h
    case isFalse => exact absurd h (by simp)
    case isTrue hcond =>
      simp only [] at h
      split at h
      case isFalse => exact absurd h (by simp)
      case isTrue =>
        simp only [Bool.and_eq_true, decide_eq_true_eq] at hcond
        rcases hcond with
          ⟨⟨⟨⟨⟨⟨⟨⟨⟨⟨⟨⟨⟨⟨⟨hc1, hc2⟩, hc3⟩, hc4⟩, hy1⟩, hy2⟩, hy3⟩, hy4⟩, hm1⟩,
            hm2⟩, hd1⟩, hd2⟩, hh1⟩, hh2⟩, hn1⟩, hn2⟩
        injection h with h
        subst h
        subst hc1
        subst hc2
        subst hc3
        subst hc4
        subst heq
        unfold datetime_to_str
        rw [pad4_digits hy1 hy2 hy3 hy4, pad2_digits hm1 hm2, pad2_digits hd1 hd2,
          pad2_digits hh1 hh2, pad2_digits hn1 hn2]
        simp

theorem PyVal.eqY_eq_true_iff (v : PyVal) : v.eqY = true ↔ v = .pstr "Y" := by
  cases v <;> simp [PyVal.eqY]

theorem neo_init_ok_iff (d n dia h : PyVal) (neo : NearEarthObject) :
    NearEarthObject.init d n dia h = .ok neo ↔
      ∃ ds ns dianum, d = .pstr ds ∧ n = .pstr ns ∧ dia.toNum? = some dianum
        ∧ h.isBoolOrStr = true
        ∧ neo = { designation := if ds = "" then none else some ds,
                  name := if ns = "" then none else some ns,
                  diameter := dianum,
                  hazardous := h.eqY } := by
  constructor
  · intro hok
    unfold NearEarthObject.init at hok
    split at hok
    case h_2 => exact absurd hok (by simp)
    case h_1 ds =>
      split at hok
      case h_2 => exact absurd hok (by simp)
      case h_1 ns =>
        split at hok
        case h_2 => exact absurd hok (by simp)
        case h_1 dianum hdia =>
          split at hok
          case isFalse => exact absurd hok (by simp)
          case isTrue hb =>
            injection hok with hok
            exact ⟨ds, ns, dianum, rfl, rfl, hdia, hb, hok.symm⟩
  · rintro ⟨ds, ns, dianum, rfl, rfl, hdia, hb, rfl⟩
    simp [NearEarthObject.init, hdia, hb]

theorem ca_init_ok_iff (d t dist vel : PyVal) (neo? : Option NearEarthObject)
    (ca : CloseApproach) :
    CloseApproach.init d t dist vel neo? = .ok ca ↔
      ∃ ds ts vn dn, d = .pstr ds ∧ t = .pstr ts ∧ vel.toNum? = some vn ∧ dist.toNum? = some dn
        ∧ ((ts = "" ∧ ca = { _designation := if ds = "" then none else some ds,
                             time := none, distance := dn.toFloat,
                             velocity := vn.toFloat, neo := neo? })
          ∨ (ts ≠ "" ∧ ∃ tt, cd_to_datetime ts = some tt
              ∧ ca = { _designation := if ds = "" then none else some ds,
                       time := some tt, distance := dn.toFloat,
                       velocity := vn.toFloat, neo := neo? })) := by
  constructor
  · intro hok
    unfold CloseApproach.init at hok
    split at hok
    case h_2 => exact absurd hok (by simp)
    case h_1 ds =>
      split at hok
      case h_2 => exact absurd hok (by simp)
      case h_1 ts =>
        split at hok
        case h_2 => exact absurd hok (by simp)
        case h_1 vn hvn =>
          split at hok
          case h_2 => exact absurd hok (by simp)
          case h_1 dn hdn =>
            split at hok
            case isTrue hts =>
              injection hok with hok
              exact ⟨ds, ts, vn, dn, rfl, rfl, hvn, hdn, .inl ⟨hts, hok.symm⟩⟩
            case isFalse hts =>
              split at hok
              case h_2 => exact absurd hok (by simp)
              case h_1 tt htt =>
                injection hok with hok
                exact ⟨ds, ts, vn, dn, rfl, rfl, hvn, hdn, .inr ⟨hts, tt, htt, hok.symm⟩⟩
  · rintro ⟨ds, ts, vn, dn, rfl, rfl, hvn, hdn, (⟨rfl, rfl⟩ | ⟨hts, tt, htt, rfl⟩)⟩
    · simp [CloseApproach.init, hvn, hdn]
    · simp [CloseApproach.init, hvn, hdn, hts, htt]

theorem neo_init_typeError_iff (d n dia h : PyVal) :
    (∃ msg, NearEarthObject.init d n dia h = .error (.typeError msg)) ↔
      ¬(d.isStr = true ∧ n.isStr = true ∧ dia.isNum = true ∧ h.isBoolOrStr = true) := by
  cases d
  case pstr ds =>
    cases n
    case pstr ns =>
      cases hdia : dia.toNum?
      case none => simp [NearEarthObject.init, PyVal.isStr, PyVal.isNum, hdia]
      case some dianum =>
        by_cases hb : h.isBoolOrStr = true
        · simp [NearEarthObject.init, PyVal.isStr, PyVal.isNum, hdia, hb]
        · simp [NearEarthObject.init, PyVal.isStr, PyVal.isNum, hdia, hb]
    all_goals simp [NearEarthObject.init, PyVal.isStr]
  all_goals simp [NearEarthObject.init, PyVal.isStr]

theorem neo_init_ne_valueError (d n dia h : PyVal) :
    NearEarthObject.init d n dia h ≠ .error .valueError := by
  intro hcon
  unfold NearEarthObject.init at hcon
  split at hcon
  case h_2 => exact absurd hcon (by simp)
  case h_1 =>
    split at hcon
    case h_2 => exact absurd hcon (by simp)
    case h_1 =>
      split at hcon
      case h_2 => exact absurd hcon (by simp)
      case h_1 =>
        split at hcon <;> exact absurd hcon (by simp)

theorem ca_init_typeError_iff (d t dist vel : PyVal)
    (neo? : Option NearEarthObject) :
    (∃ msg, CloseApproach.init d t dist vel neo? = .error (.typeError msg)) ↔
      ¬(d.isStr = true ∧ t.isStr = true ∧ dist.isNum = true ∧ vel.isNum = true) := by
  cases d
  case pstr ds =>
    cases t
    case pstr ts =>
      cases hv : vel.toNum?
      case none => simp [CloseApproach.init, PyVal.isStr, PyVal.isNum, hv]
      case some vn =>
        cases hd2 : dist.toNum?
        case none => simp [CloseApproach.init, PyVal.isStr, PyVal.isNum, hv, hd2]
        case some dn =>
          by_cases hts : ts = ""
          · simp [CloseApproach.init, PyVal.isStr, PyVal.isNum, hv, hd2, hts]
          · cases htt : cd_to_datetime ts
            · simp [CloseApproach.init, PyVal.isStr, PyVal.isNum, hv, hd2, hts, htt]
            · simp [CloseApproach.init, PyVal.isStr, PyVal.isNum, hv, hd2, hts, htt]
    all_goals simp [CloseApproach.init, PyVal.isStr]
  all_goals simp [CloseApproach.init, PyVal.isStr]

theorem ca_init_valueError_iff (d t dist vel : PyVal)
    (neo? : Option NearEarthObject) :
    CloseApproach.init d t dist vel neo? = .error .valueError ↔
      ∃ ts, t = .pstr ts ∧ d.isStr = true ∧ dist.isNum = true ∧ vel.isNum = true
        ∧ ts ≠ "" ∧ cd_to_datetime ts = none := by
  cases d
  case pstr ds =>
    cases t
    case pstr ts =>
      cases hv : vel.toNum?
      case none => simp [CloseApproach.init, PyVal.isStr, PyVal.isNum, hv]
      case some vn =>
        cases hd2 : dist.toNum?
        case none => simp [CloseApproach.init, PyVal.isStr, PyVal.isNum, hv, hd2]
        case some dn =>
          by_cases hts : ts = ""
          · simp [CloseApproach.init, PyVal.isStr, PyVal.isNum, hv, hd2, hts]
          · cases htt : cd_to_datetime ts
            · simp [CloseApproach.init, PyVal.isStr, PyVal.isNum, hv, hd2, hts, htt]
            · simp [CloseApproach.init, PyVal.isStr, PyVal.isNum, hv, hd2, hts, htt]
    all_goals simp [CloseApproach.init, PyVal.isStr]
  all_goals simp [CloseApproach.init, PyVal.isStr]

/-- C1: for every valid `NearEarthObject` construction, the stored
`hazardous` flag is true if and only if the raw hazardous input, compared
as a string, is exactly the single-character string `"Y"`; in particular
`"N"`, `""`, boolean `True` and boolean `False` all yield false. -/
theorem C1_hazardous_iff (d n dia h : PyVal) (neo : NearEarthObject)
    (hok : NearEarthObject.init d n dia h = .ok neo) :
    neo.hazardous = true ↔ h = .pstr "Y" := by
  obtain ⟨ds, ns, dianum, rfl, rfl, hdia, hb, rfl⟩ :=
    (neo_init_ok_iff _ _ _ _ _).1 hok
  exact PyVal.eqY_eq_true_iff h

/-- C1 witness: the theorem applied at the concrete input `"Y"`. -/
theorem C1_hazardous_iff_witness :
    ({ designation := some "433", name := none, diameter := PyNum.float none,
       hazardous := true } : NearEarthObject).hazardous = true
      ↔ PyVal.pstr "Y" = .pstr "Y" :=
  C1_hazardous_iff (.pstr "433") (.pstr "") (.pfloat none) (.pstr "Y") _ rfl

/-- C4: for every valid `NearEarthObject` construction, the stored
designation is absent iff the raw designation input was the empty string,
likewise for the name; non-empty inputs are stored unchanged. -/
theorem C4_empty_normalization (ds ns : String) (dia h : PyVal) (neo : NearEarthObject)
    (hok : NearEarthObject.init (.pstr ds) (.pstr ns) dia h = .ok neo) :
    (neo.designation = none ↔ ds = "") ∧ (neo.name = none ↔ ns = "")
      ∧ (ds ≠ "" → neo.designation = some ds) ∧ (ns ≠ "" → neo.name = some ns) := by
  obtain ⟨ds2, ns2, dianum, hds, hns, hdia, hb, rfl⟩ :=
    (neo_init_ok_iff _ _ _ _ _).1 hok
  injection hds with hds
  injection hns with hns
  subst hds
  subst hns
  by_cases h1 : ds = "" <;> by_cases h2 : ns = "" <;> simp [h1, h2]

/-- C4 witness: the theorem applied at designation `"2015 CD3"` and an
empty name. -/
theorem C4_empty_normalization_witness :
    ((NearEarthObject.mk (some "2015 CD3") none (PyNum.float none) false).designation = none
        ↔ "2015 CD3" = "")
      ∧ ((NearEarthObject.mk (some "2015 CD3") none (PyNum.float none) false).name = none
        ↔ "" = "")
      ∧ ("2015 CD3" ≠ "" →
        (NearEarthObject.mk (some "2015 CD3") none (PyNum.float none) false).designation
          = some "2015 CD3")
      ∧ ("" ≠ "" →
        (NearEarthObject.mk (some "2015 CD3") none (PyNum.float none) false).name = some "") :=
  C4_empty_normalization "2015 CD3" "" (.pfloat none) (.pstr "") _ rfl

/-- C6: for every `NearEarthObject` built from a present (non-empty)
designation, `fullname` is `"<designation> (<name>)"` when the name is
present and just `"<designation>"` when the name is absent. -/
theorem C6_fullname (ds ns : String) (dia h : PyVal) (neo : NearEarthObject)
    (hds : ds ≠ "") (hok : NearEarthObject.init (.pstr ds) (.pstr ns) dia h = .ok neo) :
    neo.fullname = if ns = "" then ds else ds ++ " (" ++ ns ++ ")" := by
  obtain ⟨ds2, ns2, dianum, hds2, hns2, hdia, hb, rfl⟩ :=
    (neo_init_ok_iff _ _ _ _ _).1 hok
  injection hds2 with hds2
  injection hns2 with hns2
  subst hds2
  subst hns2
  by_cases hn : ns = "" <;> simp [NearEarthObject.fullname, strOptStr, hds, hn]

/-- C6 witness: designation `"2015 CD3"` with name `"Bruce"` yields
`"2015 CD3 (Bruce)"`, and with an absent name yields `"2015 CD3"`. -/
theorem C6_fullname_witness :
    ({ designation := some "2015 CD3", name := some "Bruce", diameter := PyNum.float none,
       hazardous := false } : NearEarthObject).fullname = "2015 CD3 (Bruce)"
      ∧ ({ designation := some "2015 CD3", name := none, diameter := PyNum.float none,
           hazardous := false } : NearEarthObject).fullname = "2015 CD3" := by
  constructor
  · have h := C6_fullname "2015 CD3" "Bruce" (.pfloat none) (.pstr "") _ (by decide) rfl
    simpa using h
  · have h := C6_fullname "2015 CD3" "" (.pfloat none) (.pstr "") _ (by decide) rfl
    simpa using h

/-- C7: for every `CloseApproach` built from a string time input,
`time_str` is the minute-precision formatted string (via the trusted
`datetime_to_str` collaborator) when a time is present, and the empty
string when the time is absent. -/
theorem C7_time_str (d : PyVal) (ts : String) (dist vel : PyVal)
    (neo? : Option NearEarthObject) (ca : CloseApproach)
    (hok : CloseApproach.init d (.pstr ts) dist vel neo? = .ok ca) :
    (∀ t, ca.time = some t → ca.time_str = datetime_to_str t)
      ∧ (ca.time = none → ca.time_str = "")
      ∧ (ts = "" → ca.time_str = "")
      ∧ (∀ t, cd_to_datetime ts = some t → ca.time_str = datetime_to_str t) := by
  obtain ⟨ds, ts2, vn, dn, hd, ht, hv, hdist, hcase⟩ :=
    (ca_init_ok_iff _ _ _ _ _ _).1 hok
  injection ht with ht
  subst ht
  rcases hcase with ⟨hts, rfl⟩ | ⟨hts, tt, htt, rfl⟩
  · subst hts
    refine ⟨?_, ?_, ?_, ?_⟩
    · intro t htc
      simp at htc
    · intro _
      rfl
    · intro _
      rfl
    · intro t htc
      simp [cd_to_datetime] at htc
  · refine ⟨?_, ?_, ?_, ?_⟩
    · intro t htc
      simp only [CloseApproach.time_str]
      simp at htc
      subst htc
      rfl
    · intro htc
      simp at htc
    · intro htc
      exact absurd htc hts
    · intro t htc
      rw [htt] at htc
      injection htc with htc
      subst htc
      rfl

/-- C7 witness: the theorem applied at the concrete time
`"2020-06-01 00:00"`. -/
theorem C7_time_str_witness :
    (CloseApproach.mk none (some (Datetime.mk 2020 6 1 0 0)) none none none).time_str
      = datetime_to_str (Datetime.mk 2020 6 1 0 0) :=
  (C7_time_str (.pstr "") "2020-06-01 00:00" (.pfloat none) (.pfloat none) none _
    rfl).1 (Datetime.mk 2020 6 1 0 0) rfl

/-- C8: parse-then-format is the identity: whenever the `cd_to_datetime`
collaborator accepts an input string (exactly the valid strings in the
fixed format `"YYYY-MM-DD HH:MM"`), formatting the parsed timestamp with
`datetime_to_str` yields the original string. -/
theorem C8_roundtrip (s : String) (t : Datetime) (h : cd_to_datetime s = some t) :
    datetime_to_str t = s :=
  datetime_to_str_of_parse h

/-- C8 witness: `"2020-01-01 12:30"` round-trips to itself. -/
theorem C8_roundtrip_witness :
    cd_to_datetime "2020-01-01 12:30" = some (Datetime.mk 2020 1 1 12 30)
      ∧ datetime_to_str (Datetime.mk 2020 1 1 12 30) = "2020-01-01 12:30" :=
  ⟨by decide, C8_roundtrip "2020-01-01 12:30" (Datetime.mk 2020 1 1 12 30) (by decide)⟩

/-- C5 counterexample: with every field's runtime type matching its
declared semantic type (designation and time strings, distance and
velocity floats), `CloseApproach` construction still fails on the
malformed time string `"bogus"`, and with the collaborator's parse error
rather than the invalid-argument type error — so construction does not
raise exactly one kind of error, nor raise precisely at type mismatches.
-/
theorem C5_counterexample :
    CloseApproach.init (.pstr "433") (.pstr "bogus") (.pfloat none) (.pfloat none) none
      = .error .valueError
    ∧ (PyVal.pstr "433").isStr = true ∧ (PyVal.pstr "bogus").isStr = true
    ∧ (PyVal.pfloat none).isNum = true :=
  ⟨rfl, rfl, rfl, rfl⟩

/-- C5 (amended): each constructor raises the invalid-argument
`TypeError` precisely when one of its fields' runtime types mismatches
(`NearEarthObject`: designation or name not a string, diameter not
float/int, hazardous not bool/string; `CloseApproach`: designation or
time not a string, distance or velocity not numeric), and
`NearEarthObject` raises nothing else; but `CloseApproach` construction
has a second error kind: with all types matching, a non-empty time string
the collaborator cannot parse raises the parse error (`ValueError`). -/
theorem C5_construction_errors (d n dia h ti dist vel : PyVal)
    (neo? : Option NearEarthObject) :
    ((∃ msg, NearEarthObject.init d n dia h = .error (.typeError msg)) ↔
      ¬(d.isStr = true ∧ n.isStr = true ∧ dia.isNum = true ∧ h.isBoolOrStr = true))
    ∧ NearEarthObject.init d n dia h ≠ .error .valueError
    ∧ ((∃ msg, CloseApproach.init d ti dist vel neo? = .error (.typeError msg)) ↔
      ¬(d.isStr = true ∧ ti.isStr = true ∧ dist.isNum = true ∧ vel.isNum = true))
    ∧ (CloseApproach.init d ti dist vel neo? = .error .valueError ↔
      ∃ ts, ti = .pstr ts ∧ d.isStr = true ∧ dist.isNum = true ∧ vel.isNum = true
        ∧ ts ≠ "" ∧ cd_to_datetime ts = none) :=
  ⟨neo_init_typeError_iff d n dia h,
   neo_init_ne_valueError d n dia h,
   ca_init_typeError_iff d ti dist vel neo?,
   ca_init_valueError_iff d ti dist vel neo?⟩

/-- C9: `NearEarthObject` stores its diameter exactly as given with no
conversion — an integer input (including a boolean, which passes the
numeric check as a subclass of `int`) remains non-float in the stored
field — whereas `CloseApproach` always converts distance and velocity to
float even when given as integers. -/
theorem C9_numeric_storage (ds ns : String) (dia h : PyVal) (k j : ℤ) (b : Bool)
    (neo? : Option NearEarthObject) :
    (∀ neo, NearEarthObject.init (.pstr ds) (.pstr ns) dia h = .ok neo →
        dia.toNum? = some neo.diameter)
    ∧ (∀ neo, NearEarthObject.init (.pstr ds) (.pstr ns) (.pint k) h = .ok neo →
        neo.diameter = .int k ∧ ∀ q, neo.diameter ≠ .float q)
    ∧ (∀ neo, NearEarthObject.init (.pstr ds) (.pstr ns) (.pbool b) h = .ok neo →
        neo.diameter = .bool b)
    ∧ (∀ ca, CloseApproach.init (.pstr ds) (.pstr "") (.pint k) (.pint j) neo? = .ok ca →
        ca.distance = some (k : ℚ) ∧ ca.velocity = some (j : ℚ)) := by
  refine ⟨?_, ?_, ?_, ?_⟩
  · intro neo hok
    obtain ⟨ds2, ns2, dianum, hds, hns, hdia, hb, rfl⟩ :=
      (neo_init_ok_iff _ _ _ _ _).1 hok
    exact hdia
  · intro neo hok
    obtain ⟨ds2, ns2, dianum, hds, hns, hdia, hb, rfl⟩ :=
      (neo_init_ok_iff _ _ _ _ _).1 hok
    injection hdia with hdia
    subst hdia
    exact ⟨rfl, by simp⟩
  · intro neo hok
    obtain ⟨ds2, ns2, dianum, hds, hns, hdia, hb, rfl⟩ :=
      (neo_init_ok_iff _ _ _ _ _).1 hok
    injection hdia with hdia
    subst hdia
    rfl
  · intro ca hok
    obtain ⟨ds2, ts2, vn, dn, hds, hts, hv, hdist, hcase⟩ :=
      (ca_init_ok_iff _ _ _ _ _ _).1 hok
    injection hv with hv
    injection hdist with hdist
    subst hv
    subst hdist
    injection hts with hts
    rcases hcase with ⟨_, rfl⟩ | ⟨hne, _, _, _⟩
    · exact ⟨rfl, rfl⟩
    · exact absurd hts.symm hne

/-- C9 witness: the theorem applied at diameter `5` (an integer) and
distance `3`, velocity `7` (integers converted to float). -/
theorem C9_numeric_storage_witness :
    (NearEarthObject.mk (some "433") none (PyNum.int 5) false).diameter = PyNum.int 5
    ∧ (CloseApproach.mk none none (some (3 : ℚ)) (some (7 : ℚ)) none).distance
        = some ((3 : ℤ) : ℚ) :=
  ⟨((C9_numeric_storage "433" "" (.pint 5) (.pstr "") 5 7 true none).2.1 _ rfl).1,
   ((C9_numeric_storage "433" "" (.pint 5) (.pstr "") 3 7 true none).2.2.2 _ rfl).1⟩

/-- C10: when the raw designation input is the empty string (stored
designation absent), `fullname` is not empty: it is the literal text
`"None"` (or `"None (<name>)"` when a name is present), and this text
flows into both entities' human-readable renderings. -/
theorem C10_none_designation (ns : String) (dia h : PyVal) (neo : NearEarthObject)
    (hok : NearEarthObject.init (.pstr "") (.pstr ns) dia h = .ok neo) :
    neo.fullname = (if ns = "" then "None" else "None (" ++ ns ++ ")")
      ∧ neo.fullname ≠ ""
      ∧ (∃ rest, neo.str = "NEO " ++ neo.fullname ++ rest)
      ∧ (∀ ca : CloseApproach, ca.neo = some neo →
          ∃ pre rest, ca.str = some (pre ++ "'" ++ neo.fullname ++ "'" ++ rest)) := by
  obtain ⟨ds2, ns2, dianum, hds, hns, hdia, hb, rfl⟩ :=
    (neo_init_ok_iff _ _ _ _ _).1 hok
  injection hds with hds
  injection hns with hns
  subst hds
  subst hns
  have hfull : (NearEarthObject.mk (if "" = "" then none else some "")
      (if ns = "" then none else some ns) dianum (PyVal.eqY h)).fullname
      = (if ns = "" then "None" else "None (" ++ ns ++ ")") := by
    by_cases hn : ns = ""
    · simp [NearEarthObject.fullname, strOptStr, hn]
    · simp only [NearEarthObject.fullname, strOptStr, hn, if_neg, if_false,
        reduceIte]
      rw [show ("None (" : String) = "None" ++ " (" from rfl]
  refine ⟨hfull, ?_, ?_, ?_⟩
  · rw [hfull]
    by_cases hn : ns = ""
    · simp [hn]
    · simp only [hn, if_false, reduceIte]
      intro hcon
      have hlen := congrArg String.length hcon
      rw [String.length_append, String.length_append] at hlen
      have e1 : ("None (" : String).length = 6 := rfl
      have e2 : ("" : String).length = 0 := rfl
      have e3 : (")" : String).length = 1 := rfl
      omega
  · unfold NearEarthObject.str
    by_cases hz : (NearEarthObject.mk (if "" = "" then none else some "")
        (if ns = "" then none else some ns) dianum (PyVal.eqY h)).hazardous
    · refine ⟨" has a diameter of "
        ++ formatFixed (NearEarthObject.mk (if "" = "" then none else some "")
            (if ns = "" then none else some ns) dianum (PyVal.eqY h)).diameter.toFloat 3
        ++ " km and is potentially hazardous.", ?_⟩
      rw [if_pos hz]
      simp [String.append_assoc]
    · refine ⟨" has a diameter of "
        ++ formatFixed (NearEarthObject.mk (if "" = "" then none else some "")
            (if ns = "" then none else some ns) dianum (PyVal.eqY h)).diameter.toFloat 3
        ++ " km and is not potentially hazardous.", ?_⟩
      rw [if_neg hz]
      simp [String.append_assoc]
  · intro ca hca
    unfold CloseApproach.str
    rw [hca]
    refine ⟨"On " ++ ca.time_str ++ ", ",
      " approaches Earth at a distance of self.distance="
        ++ formatFixed ca.distance 2 ++ " au and a velocity of self.velocity="
        ++ formatFixed ca.velocity 2 ++ " km/s.", ?_⟩
    simp only [Option.some.injEq]
    simp only [String.append_assoc]
    rw [← String.append_assoc "'" " approaches Earth at a distance of self.distance=",
      ← String.append_assoc ", " "'"]
    simp [String.append_assoc]

/-- C10 witness: the theorem applied at an empty raw designation with
name `"Bruce"`: the full name reads `"None (Bruce)"`. -/
theorem C10_none_designation_witness :
    (NearEarthObject.mk none (some "Bruce") (PyNum.float none) false).fullname
      = (if ("Bruce" : String) = "" then "None" else "None (" ++ "Bruce" ++ ")") :=
  (C10_none_designation "Bruce" (.pfloat none) (.pstr "") _ rfl).1

/-- C3 counterexample: the all-missing-values construction of
`CloseApproach` (empty designation and time, not-a-number distance and
velocity, absent neo) succeeds, but its human-readable rendering does not
return a string: it throws (`AttributeError` on dereferencing the absent
`neo`), modelled by `none`. -/
theorem C3_counterexample :
    CloseApproach.init (.pstr "") (.pstr "") (.pfloat none) (.pfloat none) none
      = .ok (CloseApproach.mk none none none none none)
    ∧ (CloseApproach.mk none none none none none).str = none :=
  ⟨rfl, rfl⟩

/-- C3 (amended): for the constructions with missing values (empty
designation/name/time strings, not-a-number diameter/distance/velocity,
absent neo), construction succeeds and every derived computation —
`fullname`, `time_str`, both debug renderings and the `NearEarthObject`
human-readable rendering — returns a string without throwing; the one
exception is the `CloseApproach` human-readable rendering, which requires
a linked neo and throws when `neo` is absent, while returning a string as
soon as a neo is linked. -/
theorem C3_missing_values :
    NearEarthObject.init (.pstr "") (.pstr "") (.pfloat none) (.pstr "")
      = .ok (NearEarthObject.mk none none (PyNum.float none) false)
    ∧ (NearEarthObject.mk none none (PyNum.float none) false).fullname = "None"
    ∧ (NearEarthObject.mk none none (PyNum.float none) false).str
        = "NEO None has a diameter of nan km and is not potentially hazardous."
    ∧ (NearEarthObject.mk none none (PyNum.float none) false).repr
        = "NearEarthObject(self.designation=None, self.name=None, self.diameter=nan, self.hazardous=False)"
    ∧ CloseApproach.init (.pstr "") (.pstr "") (.pfloat none) (.pfloat none) none
        = .ok (CloseApproach.mk none none none none none)
    ∧ (CloseApproach.mk none none none none none).time_str = ""
    ∧ (CloseApproach.mk none none none none none).repr
        = "CloseApproach(time='', distance=nan, velocity=nan, neo=None)"
    ∧ (CloseApproach.mk none none none none none).str = none
    ∧ (CloseApproach.mk none none none none
          (some (NearEarthObject.mk none none (PyNum.float none) false))).str
        = some "On , 'None' approaches Earth at a distance of self.distance=nan au and a velocity of self.velocity=nan km/s." :=
  ⟨rfl, rfl, rfl, rfl, rfl, rfl, rfl, rfl, rfl⟩

theorem formatFixed_eval {q : ℚ} {k n : Nat} (hr : round (q * (10 : ℚ) ^ k) = (n : ℤ)) :
    formatFixed (some q) k = toString (n / 10 ^ k) ++ "." ++ padZeros k (n % 10 ^ k) := by
  simp only [formatFixed, hr]
  rw [if_neg (by omega)]
  have hn : ((n : ℤ)).natAbs = n := Int.natAbs_ofNat n
  rw [hn]
  rfl

/-- C2: evaluation of the code at the spec's end-to-end input. The
rendering is not the claimed sentence: the f-string `=` debug specifier
in `CloseApproach.__str__` leaks the literal text `self.distance=` and
`self.velocity=` between the fixed words and the formatted numbers. -/
theorem C2_rendering_eval :
    NearEarthObject.init (.pstr "433") (.pstr "Eros") (.pfloat (some (421/25))) (.pstr "N")
      = .ok (NearEarthObject.mk (some "433") (some "Eros") (PyNum.float (some (421/25))) false)
    ∧ CloseApproach.init (.pstr "433") (.pstr "2020-06-01 00:00") (.pfloat (some (9/20)))
        (.pfloat (some (36/5)))
        (some (NearEarthObject.mk (some "433") (some "Eros") (PyNum.float (some (421/25))) false))
      = .ok (CloseApproach.mk (some "433") (some (Datetime.mk 2020 6 1 0 0))
          (some (9/20)) (some (36/5))
          (some (NearEarthObject.mk (some "433") (some "Eros") (PyNum.float (some (421/25))) false)))
    ∧ (CloseApproach.mk (some "433") (some (Datetime.mk 2020 6 1 0 0))
        (some (9/20)) (some (36/5))
        (some (NearEarthObject.mk (some "433") (some "Eros") (PyNum.float (some (421/25))) false))).str
      = some "On 2020-06-01 00:00, '433 (Eros)' approaches Earth at a distance of self.distance=0.45 au and a velocity of self.velocity=7.20 km/s." := by
  have h045 : formatFixed (some ((9 : ℚ)/20)) 2 = "0.45" := by
    rw [@formatFixed_eval ((9 : ℚ)/20) 2 45 (by rw [round_eq]; norm_num)]
    rfl
  have h720 : formatFixed (some ((36 : ℚ)/5)) 2 = "7.20" := by
    rw [@formatFixed_eval ((36 : ℚ)/5) 2 720 (by rw [round_eq]; norm_num)]
    rfl
  refine ⟨rfl, rfl, ?_⟩
  rw [show (CloseApproach.mk (some "433") (some (Datetime.mk 2020 6 1 0 0))
        (some (9/20)) (some (36/5))
        (some (NearEarthObject.mk (some "433") (some "Eros")
          (PyNum.float (some (421/25))) false))).str
      = some ("On " ++ datetime_to_str (Datetime.mk 2020 6 1 0 0) ++ ", '"
        ++ (NearEarthObject.mk (some "433") (some "Eros")
            (PyNum.float (some (421/25))) false).fullname
        ++ "' approaches Earth at a distance of self.distance="
        ++ formatFixed (some ((9 : ℚ)/20)) 2
        ++ " au and a velocity of self.velocity="
        ++ formatFixed (some ((36 : ℚ)/5)) 2 ++ " km/s.") from rfl,
    h045, h720]
  decide
